import Mathlib

/-!
Shallow embedding of the `amodely` anomaly-detection engine.

The embedding follows the Python sources:
  * `src/lib/arimatools.py` — differencing-order search (`calc_d`) and the
    ARIMA starting-parameter heuristic (`calc_parameters`);
  * `src/lib/pipelines.py`  — the transform steps and `dimension_pipeline`;
  * `src/amodely.py`        — the `Amodely` orchestrator: measure/dimension
    setters, `bad_categories`, `reset_working`, and the per-category loop of
    `detect_anomalies`.

Numeric series are modelled as `List ℚ`.  Library statistics that cannot be
reproduced arithmetically (the ADF stationarity test, PACF/ACF counting, the
STL decomposition residuals, the normal quantile function) enter the model as
explicit oracle parameters, exactly where the Python code calls out to
`statsmodels`/`scipy`; everything the repository itself computes is embedded
concretely.
-/

/-- Successive differences of a series, `pandas.Series.diff().dropna()`.
For `[a, b, c]` this is `[b - a, c - b]`. -/
def diffOnce (s : List ℚ) : List ℚ :=
  List.zipWith (fun a b => a - b) s.tail s

/-- Mean of a series as computed by `np.mean` (`0` on the empty series, where
numpy gives NaN; the embedding never evaluates that case). -/
def seriesMean (s : List ℚ) : ℚ :=
  s.sum / (s.length : ℚ)

/-- Population variance, i.e. the square of `np.std`.  `np.std` itself is the
square root; since the source only ever *compares* standard deviations, and
`x ↦ √x` is monotone on `[0, ∞)`, comparing variances is equivalent. -/
def popVar (s : List ℚ) : ℚ :=
  ((s.map (fun x => (x - seriesMean s) ^ 2)).sum) / (s.length : ℚ)

/-- The list `differences` built by the loop in `calc_d`
(src/lib/arimatools.py:63-69): the series itself and its first `iter`
successive differences, tagged with the differencing order. -/
def diffCandidates (s : List ℚ) (iter : ℕ) : List (List ℚ × ℕ) :=
  (List.range (iter + 1)).map (fun k => (diffOnce^[k] s, k))

/-- Embedding of `calc_d` (src/lib/arimatools.py:36-82).  `stationary` is the oracle for
`is_stationary` (the ADF unit-root test at the chosen significance level).

Faithful detail: line 72 of the source reads
`sorted(differences, key=lambda x: x[1])` and *discards* the sorted list, so
the scan below runs over the candidates in differencing order `0, 1, …, iter`
and returns the order of the first stationary candidate (`0` if none is). -/
def calc_d (stationary : List ℚ → Bool) (s : List ℚ) (iter : ℕ) : ℕ :=
  match (diffCandidates s iter).find? (fun c => stationary c.1) with
  | some c => c.2
  | none => 0

/-- Modelled from the spec sentence for `optimal_differencing`: among the
candidates passing the stationarity test, return the order of the one with
the smallest standard deviation (smallest `popVar`, ties broken towards the
lower order); `0` when none passes.  This is the claimed behaviour, kept
separate from `calc_d` so the two can be compared. -/
def calc_d_smallest_std (stationary : List ℚ → Bool) (s : List ℚ)
    (iter : ℕ) : ℕ :=
  match (diffCandidates s iter).filter (fun c => stationary c.1) with
  | [] => 0
  | c :: rest =>
      (rest.foldl (fun best x => if popVar x.1 < popVar best.1 then x else best)
        c).2

/-- The `while q >= 10` guard loop of `calc_parameters`
(src/lib/arimatools.py:204-211).  `cp` is the oracle for `calc_p` (leading
PACF lags outside the critical band).  Each pass reduces `q` by 5, increments
`d`, differences the series once more and recomputes `p` on it. -/
def qGuard (cp : List ℚ → ℕ) (p d q : ℕ) (sd : List ℚ) : ℕ × ℕ × ℕ :=
  if 10 ≤ q then
    qGuard cp (cp (diffOnce sd)) (d + 1) (q - 5) (diffOnce sd)
  else
    (p, d, q)
termination_by q
decreasing_by omega

/-- Embedding of `calc_parameters` (src/lib/arimatools.py:172-213).
`stationary` feeds `calc_d`; `cp`/`cq` are the oracles for `calc_p`/`calc_q`. -/
def calc_parameters (stationary : List ℚ → Bool) (cp cq : List ℚ → ℕ)
    (s : List ℚ) : ℕ × ℕ × ℕ :=
  let d := calc_d stationary s 3
  let sd := diffOnce^[d] s
  qGuard cp (cp sd) d (cq sd) sd

/-- Stationarity oracle that accepts every series (used to exhibit concrete
runs of `calc_d`). -/
def statAll : List ℚ → Bool := fun _ => true

/-- One named step of an sklearn `Pipeline`, mirroring the transformer
classes of src/lib/pipelines.py.  `fillNA value` is `FillNA(value)`,
`filterCategory dim cats remove` is `FilterCategory(dim, cats, remove)`,
and so on. -/
inductive PipeStep where
  | fillNA : ℚ → PipeStep
  | collapseDimensions : String → String → PipeStep
  | filterCategory : String → List String → Bool → PipeStep
  | convertFrequency : String → String → PipeStep
  | addMeasure : String → String → PipeStep
deriving DecidableEq

/-- Embedding of `dimension_pipeline` (src/lib/pipelines.py:346-383) as the
ordered list of steps of the returned `Pipeline`. -/
def dimension_pipeline (measure dimension frequency : String)
    (bad_categories : List String) : List PipeStep :=
  if dimension = "ALL" then
    [PipeStep.collapseDimensions measure dimension,
     PipeStep.convertFrequency dimension frequency,
     PipeStep.addMeasure measure dimension]
  else
    [PipeStep.collapseDimensions measure dimension,
     PipeStep.filterCategory dimension ("Unknown" :: bad_categories) true,
     PipeStep.convertFrequency dimension frequency,
     PipeStep.addMeasure measure dimension]

/-- Modelled from the spec sentence for `build_dimension_pipeline`: the
claimed step sequence, with a fill-missing step first.  Kept separate from
`dimension_pipeline` so the two can be compared. -/
def dimension_pipeline_claimed (measure dimension frequency : String)
    (bad_categories : List String) : List PipeStep :=
  if dimension = "ALL" then
    [PipeStep.fillNA 0,
     PipeStep.collapseDimensions measure dimension,
     PipeStep.convertFrequency dimension frequency,
     PipeStep.addMeasure measure dimension]
  else
    [PipeStep.fillNA 0,
     PipeStep.collapseDimensions measure dimension,
     PipeStep.filterCategory dimension ("Unknown" :: bad_categories) true,
     PipeStep.convertFrequency dimension frequency,
     PipeStep.addMeasure measure dimension]

/-- Substring test on character lists: Python's `needle in hay` for strings,
also the semantics of `pandas.Series.str.contains` on a literal pattern. -/
def containsSub : List Char → List Char → Bool
  | n, [] => n.isEmpty
  | n, c :: t => n.isPrefixOf (c :: t) || containsSub n t

/-- Match of the regex union `"|".join(category)` used by
`FilterCategory.transform` (src/lib/pipelines.py:134-135).  Joining the empty
list yields the empty pattern, which matches every row; a non-empty list
matches a row containing any of the alternatives.  Category names in this
repository contain no regex metacharacters, so each alternative is a literal
substring. -/
def regexUnionMatch (category : List String) (s : String) : Bool :=
  category.isEmpty || category.any (fun c => containsSub c.data s.data)

/-- One row of a table as seen by `FilterCategory`: its pandas index label
and its value in the (upper-cased) dimension column. -/
structure TableRow where
  idx : ℕ
  dimVal : String
deriving DecidableEq

/-- Embedding of `FilterCategory.transform` (src/lib/pipelines.py:123-138):
keep (`remove = false`) or drop (`remove = true`) the rows whose dimension
value matches the category union; a no-op when the dimension is `"ALL"`.
(The `reset_index(drop=True)` in the remove branch changes positional
indices only, not the rows themselves, and is not part of the row model.) -/
def filterCategoryTransform (dimension : String) (category : List String)
    (remove : Bool) (X : List TableRow) : List TableRow :=
  if dimension = "ALL" then X
  else if remove then X.filter (fun r => !(regexUnionMatch category r.dimVal))
  else X.filter (fun r => regexUnionMatch category r.dimVal)

/-- Number of occurrences of the value `c` in a column, i.e. the entry of
`Series.value_counts()` at `c`. -/
def countOf (col : List String) (c : String) : ℕ :=
  (col.filter (fun x => x = c)).length

/-- Categories of the working-table column whose `value_counts()` entry is
below 100: the index of `filt.drop(filt.index[~filt])` in
src/amodely.py:160-167.  (`value_counts` orders its index by descending
count; this embedding lists the same set in first-occurrence order, which is
immaterial to every statement made about it.) -/
def lowCountCats (col : List String) : List String :=
  col.dedup.filter (fun c => countOf col c < 100)

/-- Lexicographic comparison of character lists by code point — the string
order used by Python's `sorted`. -/
def charListLe : List Char → List Char → Bool
  | [], _ => true
  | _ :: _, [] => false
  | a :: xs, b :: ys =>
    if a.toNat < b.toNat then true
    else if b.toNat < a.toNat then false
    else charListLe xs ys

/-- String comparison by code points, as Python's `sorted` orders strings. -/
def strLe (a b : String) : Bool :=
  charListLe a.data b.data

/-- Insertion of a string into an already sorted list. -/
def insertSorted (a : String) : List String → List String
  | [] => [a]
  | b :: t => if strLe a b then a :: b :: t else b :: insertSorted a t

/-- The `categories` property (src/amodely.py:110-117) for a non-"ALL"
dimension: `sorted(set(main_df[dimension]))`. -/
def sortedCategories (col : List String) : List String :=
  col.dedup.foldr insertSorted []

/-- First category, in `sorted(set(...))` order, containing the sentinel
`"Unknown"` — the category at which the loop in `bad_categories`
(src/amodely.py:163-165) returns. -/
def firstUnknown (col : List String) : Option String :=
  (sortedCategories col).find? (fun c => containsSub "Unknown".data c.data)

/-- Embedding of the `bad_categories` property (src/amodely.py:147-167).
`w` is the selected dimension's column in the working dataframe (which feeds
`value_counts`), `m` the same column in the main dataframe (which feeds the
`categories` property). -/
def bad_categories (dimension : String) (w m : List String) : List String :=
  if dimension = "ALL" then []
  else
    match firstUnknown m with
    | some category => lowCountCats w ++ [category]
    | none => lowCountCats w

/-- The working-table column used in the `bad_categories` counterexample:
two categories containing the sentinel `"Unknown"`, each with 100 rows. -/
def twoUnknownCol : List String :=
  List.replicate 100 "UnknownA" ++ List.replicate 100 "UnknownB"

/-- Value of one entry of a pandas float column: a finite number, `inf`,
`-inf`, or `NaN`. -/
inductive PdVal where
  | num : ℚ → PdVal
  | posInf : PdVal
  | negInf : PdVal
  | nan : PdVal
deriving DecidableEq

/-- Division of two pandas float column entries with finite operands:
division by zero follows IEEE-754 semantics (`x/0 = ±inf` for `x ≠ 0`,
`0/0 = NaN`), which is what `X["SALES_COUNT"] / X["QUOTE_COUNT"]` produces
elementwise in pandas. -/
def pdDiv (a b : ℚ) : PdVal :=
  if b = 0 then
    if 0 < a then PdVal.posInf
    else if a < 0 then PdVal.negInf
    else PdVal.nan
  else PdVal.num (a / b)

/-- One row of the collapsed, resampled table on which `AddMeasure` runs:
the two summed source columns of the `CONVERSION_RATE` measure. -/
structure CollapsedRow where
  quoteCount : ℚ
  salesCount : ℚ
deriving DecidableEq

/-- Embedding of the `CONVERSION_RATE` branch of `AddMeasure.transform`
(src/lib/pipelines.py:306-312): each row is annotated with
`SALES_COUNT / QUOTE_COUNT`. -/
def addConversionRate (t : List CollapsedRow) : List (CollapsedRow × PdVal) :=
  t.map (fun r => (r, pdDiv r.salesCount r.quoteCount))

/-- Standardisation of one STL residual as in the `stl` branch of
`detect_anomalies` (src/amodely.py:272-273): the residual minus the residual
mean, divided by the residual standard deviation `σ`.  The caller supplies
`σ` (a square root, hence not a rational-valued function of the residuals);
the theorems pin it down by the hypotheses `0 ≤ σ` and `σ ^ 2 = popVar resid`. -/
def standardize (resid : List ℚ) (σ r : ℚ) : ℚ :=
  (r - seriesMean resid) / σ

/-- Anomaly classification of one standardised residual against the normal
quantile bounds `lo = Φ⁻¹(sig/2)` and `hi = Φ⁻¹(1 − sig/2)`
(src/amodely.py:280-283). -/
def isAnomaly (lo hi s : ℚ) : Bool :=
  decide (s ≤ lo) || decide (hi ≤ s)

/-- The `ANOMALY` column produced by the `stl` branch for one category's
series: each point's residual is standardised and classified.  `resid` is
the residual series returned by the STL decomposition (an oracle: the
decomposition itself is `statsmodels` code), `σ` its standard deviation and
`lo`/`hi` the `norm.ppf` bounds. -/
def stlAnomalyFlags (resid : List ℚ) (σ lo hi : ℚ) : List Bool :=
  resid.map (fun r => isAnomaly lo hi (standardize resid σ r))

/-- A snapshot of the `Amodely` object's dataframe ownership.  Python
attributes hold references into a heap of dataframe objects; `heap` maps a
reference to the object it designates, `mainRef`/`dfRef` are the references
held by `_main_df`/`_df`, and references `≥ nextFree` are unallocated. -/
structure Store (α : Type) where
  heap : ℕ → α
  mainRef : ℕ
  dfRef : ℕ
  nextFree : ℕ

/-- Heap update at one reference. -/
def writeHeap {α : Type} (h : ℕ → α) (r : ℕ) (v : α) : ℕ → α :=
  fun i => if i = r then v else h i

/-- Embedding of the `df` setter (src/amodely.py:140-145):
`self._df = df.copy()` allocates a fresh object holding a copy of the given
table and points `_df` at it. -/
def setDf {α : Type} (s : Store α) (t : α) : Store α :=
  { heap := writeHeap s.heap s.nextFree t
    mainRef := s.mainRef
    dfRef := s.nextFree
    nextFree := s.nextFree + 1 }

/-- Embedding of `reset_working` (src/amodely.py:169-174):
`self.df = self.main_df.copy()` — the explicit `.copy()` plus the copying
`df` setter allocate a fresh object with the main table's contents. -/
def reset_working {α : Type} (s : Store α) : Store α :=
  setDf s (s.heap s.mainRef)

/-- An in-place mutation of the working dataframe object (e.g.
`model.df["col"] = value`): the object designated by `dfRef` is overwritten,
no reference changes. -/
def mutateDf {α : Type} (s : Store α) (f : α → α) : Store α :=
  { s with heap := writeHeap s.heap s.dfRef (f (s.heap s.dfRef)) }

/-- The per-category loop of `detect_anomalies` (src/amodely.py:229-292)
under Python exception semantics.  `detect` runs the selected strategy on one
category's series and either returns that category's output rows or raises
(`Except.error`); the loop body has no `try`/`except`, so the first raise
aborts the whole loop and `pd.concat(anomalies)` is never reached. -/
def runCategories {α : Type} (detect : String → Except String (List α)) :
    List String → Except String (List α)
  | [] => Except.ok []
  | c :: rest =>
    match detect c with
    | Except.error e => Except.error e
    | Except.ok rows =>
      match runCategories detect rest with
      | Except.error e => Except.error e
      | Except.ok others => Except.ok (rows ++ others)

/-- A three-category strategy oracle whose middle category raises (too few
points to decompose), used to exhibit the abort behaviour. -/
def detectMiddleFails : String → Except String (List ℚ) :=
  fun c =>
    if c = "A" then Except.ok [1]
    else if c = "B" then Except.error "InsufficientData"
    else Except.ok [3]

/-- The measure registry `STRUCTURE` of src/lib/lib.py:17-34: each measure
name maps to the per-column aggregation spec used by `CollapseDimensions`. -/
def STRUCTURE : List (String × List (String × String)) :=
  [("QUOTE_VOLUME", [("QUOTE_COUNT", "sum")]),
   ("SALES_VOLUME", [("SALES_COUNT", "sum")]),
   ("QUOTE_PROPORTION", [("QUOTE_COUNT", "sum")]),
   ("SALES_PROPORTION", [("SALES_COUNT", "sum")]),
   ("CONVERSION_RATE", [("QUOTE_COUNT", "sum"), ("SALES_COUNT", "sum")])]

/-- Embedding of the `measure` setter (src/amodely.py:73-81): the argument is
compared verbatim against `STRUCTURE.keys()`; on failure an `AttributeError`
is raised (`Except.error`). -/
def setMeasure (measure : String) : Except String String :=
  if (STRUCTURE.map Prod.fst).contains measure then Except.ok measure
  else Except.error "Measure not found."

/-- Upper-casing of a string, Python's `str.upper()` — per-character
upper-casing (dimension names in this repository are ASCII). -/
def pyUpper (s : String) : String :=
  String.mk (s.data.map Char.toUpper)

/-- Embedding of the `dimension` setter (src/amodely.py:90-99): the argument
is upper-cased first, then checked against the model's dimensions and the
`"ALL"` sentinel; the upper-cased value is what gets stored. -/
def setDimension (dimensions : List String) (dimension : String) :
    Except String String :=
  let d := pyUpper dimension
  if dimensions.contains d || d = "ALL" then Except.ok d
  else Except.error "Dimension not found."

/-- Case-variant relation on strings: two spellings of the same name up to
letter case. -/
def caseVariant (v d : String) : Bool :=
  pyUpper v = pyUpper d

/-- A concrete store used to instantiate the copy-isolation theorem: three
allocated cells, `_main_df` at reference 0, `_df` at reference 1. -/
def storeExample : Store ℕ :=
  { heap := fun _ => 0, mainRef := 0, dfRef := 1, nextFree := 2 }

/-- Concrete rows used to instantiate the filter partition theorem. -/
def partitionRows : List TableRow :=
  [⟨0, "NSW"⟩, ⟨1, "VIC"⟩, ⟨2, "Unknown"⟩]

/-- A PACF oracle returning a constant order, used to instantiate the
starting-parameter theorem. -/
def cpTwo : List ℚ → ℕ := fun _ => 2

/-- An ACF oracle returning an order past the guard threshold, used to
instantiate the starting-parameter theorem. -/
def cqTwelve : List ℚ → ℕ := fun _ => 12

/-- C1 counterexample: with three categories whose middle detector raises
(`InsufficientData`), the per-category loop of `detect_anomalies` aborts with
that exception; it does not return the other two categories' rows, contrary
to the claim that the run still completes with the failing category merely
absent. -/
theorem detect_anomalies_error_propagates_cex :
    runCategories detectMiddleFails ["A", "B", "C"] =
      Except.error "InsufficientData" ∧
    runCategories detectMiddleFails ["A", "B", "C"] ≠ Except.ok [1, 3] := by
  have h : runCategories detectMiddleFails ["A", "B", "C"] =
      Except.error "InsufficientData" := rfl
  exact ⟨h, by rw [h]; simp⟩

/-- C1 (amended): a single category's detector failure propagates out of the
per-category loop of `detect_anomalies` — whenever any eligible category's
detector raises, the whole run raises and no anomaly table is produced. -/
theorem detect_anomalies_error_propagation {α : Type}
    (detect : String → Except String (List α)) (cats : List String)
    (c e : String) (hc : c ∈ cats) (he : detect c = Except.error e) :
    ∃ e2, runCategories detect cats = Except.error e2 := by
  induction cats with
  | nil => cases hc
  | cons a rest ih =>
    rcases List.mem_cons.mp hc with h | h
    · subst h
      exact ⟨e, by rw [runCategories, he]⟩
    · cases hda : detect a with
      | error e3 => exact ⟨e3, by rw [runCategories, hda]⟩
      | ok rows =>
        obtain ⟨e2, h2⟩ := ih h
        exact ⟨e2, by rw [runCategories, hda, h2]⟩

/-- C1 witness: the amended propagation theorem applied to the concrete
three-category run whose middle detector raises. -/
theorem detect_anomalies_error_propagation_witness :
    "B" ∈ ["A", "B", "C"] ∧
    detectMiddleFails "B" = Except.error "InsufficientData" ∧
    ∃ e2, runCategories detectMiddleFails ["A", "B", "C"] = Except.error e2 :=
  ⟨by decide, rfl,
    detect_anomalies_error_propagation detectMiddleFails ["A", "B", "C"]
      "B" "InsufficientData" (by decide) rfl⟩

/-- C2: divergence between `calc_d` and its documented selection rule.  On
the series `[0, 1, 2, 3, 4, 5]` with a stationarity oracle accepting every
candidate, the first difference has strictly smaller variance (hence smaller
standard deviation) than the undifferenced series and is stationary, so the
documented smallest-standard-deviation rule yields `d = 1`; the code returns
`d = 0` because line 72 of src/lib/arimatools.py discards the result of
`sorted(differences, key=...)` and the scan proceeds in differencing order. -/
theorem calc_d_first_stationary_divergence :
    calc_d statAll [0, 1, 2, 3, 4, 5] 3 = 0 ∧
    calc_d_smallest_std statAll [0, 1, 2, 3, 4, 5] 3 = 1 ∧
    popVar (diffOnce [0, 1, 2, 3, 4, 5]) < popVar [0, 1, 2, 3, 4, 5] ∧
    statAll (diffOnce [0, 1, 2, 3, 4, 5]) = true := by
  refine ⟨by decide, ?_, ?_, by decide⟩
  · norm_num [calc_d_smallest_std, diffCandidates, popVar, seriesMean,
      diffOnce, statAll, List.range_succ, Function.iterate_succ_apply]
  · norm_num [popVar, seriesMean, diffOnce]

/-- C3 counterexample: the pipeline built by `dimension_pipeline` differs
from the claimed step sequence — it contains no fill-missing step at all
(null-filling happens once, at model construction, not in the pipeline). -/
theorem dimension_pipeline_no_fill_missing_cex :
    dimension_pipeline "CONVERSION_RATE" "STATE" "W-MON" [] ≠
      dimension_pipeline_claimed "CONVERSION_RATE" "STATE" "W-MON" [] ∧
    PipeStep.fillNA 0 ∉ dimension_pipeline "CONVERSION_RATE" "STATE" "W-MON" [] := by
  decide

/-- C3 (amended): for every measure, dimension, frequency and bad-category
list, the pipeline returned by `dimension_pipeline` consists of exactly
collapse, then (only when the dimension is not "ALL") removal of the
"Unknown" and bad categories, then resample, then derive-measure; the
category-removal step is absent when the dimension is "ALL", and no
fill-missing step occurs in the pipeline. -/
theorem dimension_pipeline_steps (measure dimension frequency : String)
    (bads : List String) :
    dimension_pipeline measure dimension frequency bads =
      PipeStep.collapseDimensions measure dimension ::
        ((if dimension = "ALL" then []
          else [PipeStep.filterCategory dimension ("Unknown" :: bads) true]) ++
         [PipeStep.convertFrequency dimension frequency,
          PipeStep.addMeasure measure dimension]) ∧
    ∀ v, PipeStep.fillNA v ∉ dimension_pipeline measure dimension frequency bads := by
  unfold dimension_pipeline
  by_cases h : dimension = "ALL" <;> simp [h]

/-- C4: in the `stl` branch, a point is flagged as an anomaly if and only if
its standardised residual — the residual minus the residual mean, divided by
the residual standard deviation `σ` (`0 ≤ σ` with `σ² = popVar resid`) — is
at most the lower normal quantile bound or at least the upper one. -/
theorem stl_anomaly_flag_iff (resid : List ℚ) (σ lo hi : ℚ) (i : ℕ)
    (h : i < resid.length) (hσ0 : 0 ≤ σ) (hσ : σ ^ 2 = popVar resid) :
    ((stlAnomalyFlags resid σ lo hi).getD i false = true ↔
      (standardize resid σ (resid.getD i 0) ≤ lo ∨
       hi ≤ standardize resid σ (resid.getD i 0))) := by
  simp [stlAnomalyFlags, List.getD_eq_getElem?_getD, List.getElem?_map,
    List.getElem?_eq_getElem h, isAnomaly]

/-- C4 witness: the flag equivalence at the concrete residual series `[0, 2]`
(mean 1, variance 1, so `σ = 1`), bounds `-3`/`3`, index 0. -/
theorem stl_anomaly_flag_iff_witness :
    (0 : ℕ) < 2 ∧ (0 : ℚ) ≤ 1 ∧ (1 : ℚ) ^ 2 = popVar [0, 2] ∧
    ((stlAnomalyFlags [0, 2] 1 (-3) 3).getD 0 false = true ↔
      (standardize [0, 2] 1 (([0, 2] : List ℚ).getD 0 0) ≤ -3 ∨
       (3 : ℚ) ≤ standardize [0, 2] 1 (([0, 2] : List ℚ).getD 0 0))) :=
  ⟨by decide, by decide, by norm_num [popVar, seriesMean],
    stl_anomaly_flag_iff [0, 2] 1 (-3) 3 0 (by decide) (by decide)
      (by norm_num [popVar, seriesMean])⟩

/-- C5: immediately after `reset_working` the working table's contents equal
the main table's, the two attributes designate distinct objects, and any
sequence of in-place mutations of the working table leaves the main table's
object unchanged. -/
theorem reset_working_copy_isolation {α : Type} (s : Store α)
    (h : s.mainRef < s.nextFree) (fs : List (α → α)) :
    ((reset_working s).heap (reset_working s).dfRef =
      (reset_working s).heap (reset_working s).mainRef) ∧
    (reset_working s).dfRef ≠ (reset_working s).mainRef ∧
    (fs.foldl mutateDf (reset_working s)).heap
        (fs.foldl mutateDf (reset_working s)).mainRef = s.heap s.mainRef := by
  have hne : (reset_working s).dfRef ≠ (reset_working s).mainRef := by
    simp only [reset_working, setDf]
    omega
  have hmain : ∀ (fs : List (α → α)) (t : Store α), t.dfRef ≠ t.mainRef →
      (fs.foldl mutateDf t).heap (fs.foldl mutateDf t).mainRef =
        t.heap t.mainRef := by
    intro fs
    induction fs with
    | nil => intro t _; rfl
    | cons f rest ih =>
      intro t ht
      rw [List.foldl_cons, ih (mutateDf t f) ht]
      simp only [mutateDf, writeHeap]
      rw [if_neg (Ne.symm ht)]
  have hread : (reset_working s).heap (reset_working s).mainRef =
      s.heap s.mainRef := by
    simp [reset_working, setDf, writeHeap]
  refine ⟨?_, hne, ?_⟩
  · simp [reset_working, setDf, writeHeap]
  · rw [hmain fs (reset_working s) hne, hread]

/-- C5 witness: the copy-isolation theorem at a concrete three-cell store
with one increment mutation of the working table. -/
theorem reset_working_copy_isolation_witness :
    storeExample.mainRef < storeExample.nextFree ∧
    ((reset_working storeExample).heap (reset_working storeExample).dfRef =
      (reset_working storeExample).heap (reset_working storeExample).mainRef) ∧
    (reset_working storeExample).dfRef ≠ (reset_working storeExample).mainRef ∧
    ([fun n => n + 1].foldl mutateDf (reset_working storeExample)).heap
        ([fun n => n + 1].foldl mutateDf (reset_working storeExample)).mainRef =
      storeExample.heap storeExample.mainRef :=
  have h := reset_working_copy_isolation storeExample (by decide)
    [fun n => n + 1]
  ⟨by decide, h.1, h.2.1, h.2.2⟩

set_option maxRecDepth 4000 in
/-- C6 counterexample: with two categories containing the `"Unknown"`
sentinel, each having 100 rows (so neither is low-count), the
`bad_categories` property returns only the alphabetically first of them;
`"UnknownB"` contains the sentinel and is a category of the dimension, yet it
is not in `bad_categories`, refuting the claim that every such category is. -/
theorem bad_categories_unknown_dropped_cex :
    containsSub "Unknown".data "UnknownB".data = true ∧
    "UnknownB" ∈ twoUnknownCol ∧
    "UnknownB" ∉ bad_categories "STATE" twoUnknownCol twoUnknownCol := by
  decide

/-- C6 (amended): for a non-"ALL" dimension, `bad_categories` consists of
exactly the categories whose row count in the working table is below 100,
together with the first category (in sorted order, over the main table's
categories) containing the `"Unknown"` sentinel, when one exists; for the
"ALL" dimension it is empty. -/
theorem bad_categories_mem_iff (dimension : String) (w m : List String)
    (c : String) :
    c ∈ bad_categories dimension w m ↔
      (dimension ≠ "ALL" ∧
        ((c ∈ w ∧ countOf w c < 100) ∨ firstUnknown m = some c)) := by
  unfold bad_categories
  by_cases h : dimension = "ALL"
  · simp [h]
  · rw [if_neg h]
    cases hf : firstUnknown m with
    | none =>
      simp [h, lowCountCats, List.mem_filter, List.mem_dedup]
    | some u =>
      simp [h, lowCountCats, List.mem_append, List.mem_filter,
        List.mem_dedup, eq_comm]

/-- C7 counterexample: on a collapsed table with one week of zero quotes and
one week of negative sales, the derived `CONVERSION_RATE` column is
`[inf, -1]` — the first value is not a finite number at all and the second is
negative, so not every derived value lies in `[0, ∞)`. -/
theorem conversion_rate_nonneg_cex :
    (addConversionRate [⟨0, 1⟩, ⟨1, -1⟩]).map Prod.snd =
      [PdVal.posInf, PdVal.num (-1)] ∧
    ¬ (∀ v ∈ (addConversionRate [⟨0, 1⟩, ⟨1, -1⟩]).map Prod.snd,
        ∃ q : ℚ, v = PdVal.num q ∧ 0 ≤ q) := by
  constructor
  · norm_num [addConversionRate, pdDiv]
  · intro hall
    obtain ⟨q, hq, _⟩ := hall PdVal.posInf (by norm_num [addConversionRate, pdDiv])
    exact PdVal.noConfusion hq

/-- C7 (amended): the derived `CONVERSION_RATE` column equals
`SALES_COUNT / QUOTE_COUNT` elementwise (in pandas float semantics, where
division by a zero quote count yields `±inf`/`NaN`), and when every week's
quote count is positive and sales count nonnegative, every derived value is
a finite number in `[0, ∞)`. -/
theorem conversion_rate_elementwise_nonneg (t : List CollapsedRow)
    (h : ∀ r ∈ t, 0 < r.quoteCount ∧ 0 ≤ r.salesCount) :
    ((addConversionRate t).map Prod.snd =
      t.map (fun r => pdDiv r.salesCount r.quoteCount)) ∧
    ∀ v ∈ (addConversionRate t).map Prod.snd,
      ∃ q : ℚ, v = PdVal.num q ∧ 0 ≤ q := by
  constructor
  · simp [addConversionRate]
  · intro v hv
    simp only [addConversionRate, List.map_map, List.mem_map,
      Function.comp] at hv
    obtain ⟨r, hr, hrv⟩ := hv
    obtain ⟨hq, hs⟩ := h r hr
    refine ⟨r.salesCount / r.quoteCount, ?_, div_nonneg hs (le_of_lt hq)⟩
    rw [← hrv]
    unfold pdDiv
    rw [if_neg (ne_of_gt hq)]

/-- C7 witness: the amended theorem at a one-week table with two quotes and
one sale. -/
theorem conversion_rate_elementwise_nonneg_witness :
    (∀ r ∈ ([⟨2, 1⟩] : List CollapsedRow),
      0 < r.quoteCount ∧ 0 ≤ r.salesCount) ∧
    ((addConversionRate [⟨2, 1⟩]).map Prod.snd =
      ([⟨2, 1⟩] : List CollapsedRow).map
        (fun r => pdDiv r.salesCount r.quoteCount)) ∧
    ∀ v ∈ (addConversionRate [⟨2, 1⟩]).map Prod.snd,
      ∃ q : ℚ, v = PdVal.num q ∧ 0 ≤ q :=
  have h := conversion_rate_elementwise_nonneg [⟨2, 1⟩] (by decide)
  ⟨by decide, h.1, h.2⟩

/-- C8: for a non-"ALL" dimension, the rows kept by `FilterCategory` with
`remove=False` and those kept with `remove=True` partition the input table:
their concatenation is a permutation of the original rows and no row occurs
on both sides. -/
theorem filter_category_partition (dimension : String)
    (category : List String) (X : List TableRow) (h : dimension ≠ "ALL") :
    (filterCategoryTransform dimension category false X ++
      filterCategoryTransform dimension category true X).Perm X ∧
    List.Disjoint (filterCategoryTransform dimension category false X)
      (filterCategoryTransform dimension category true X) := by
  unfold filterCategoryTransform
  simp only [if_neg h, if_pos, if_neg, Bool.false_eq_true, ite_false,
    ite_true]
  constructor
  · exact List.filter_append_perm _ X
  · intro r h1 h2
    rw [List.mem_filter] at h1 h2
    rw [h1.2] at h2
    exact absurd h2.2 (by simp)

/-- C8 witness: the partition theorem at a concrete three-row table filtered
on one category. -/
theorem filter_category_partition_witness :
    "STATE" ≠ "ALL" ∧
    (filterCategoryTransform "STATE" ["NSW"] false partitionRows ++
      filterCategoryTransform "STATE" ["NSW"] true partitionRows).Perm
      partitionRows ∧
    List.Disjoint (filterCategoryTransform "STATE" ["NSW"] false partitionRows)
      (filterCategoryTransform "STATE" ["NSW"] true partitionRows) :=
  have h := filter_category_partition "STATE" ["NSW"] partitionRows (by decide)
  ⟨by decide, h.1, h.2⟩

/-- Helper: the q-guard loop always exits with a final MA order below 10. -/
theorem qGuard_q_lt (cp : List ℚ → ℕ) (q : ℕ) :
    ∀ (p d : ℕ) (sd : List ℚ), (qGuard cp p d q sd).2.2 < 10 := by
  induction q using Nat.strong_induction_on with
  | _ q ih =>
    intro p d sd
    rw [qGuard]
    by_cases h : 10 ≤ q
    · rw [if_pos h]
      exact ih (q - 5) (by omega) _ _ _
    · rw [if_neg h]
      show q < 10
      omega

/-- C9: whenever the current MA order `q` is at least 10, `calc_parameters`'s
guard loop reduces `q` by 5, increments `d`, differences the series once
more and recomputes `p` on the newly-differenced series before re-checking;
the loop (a total function here, so it terminates on every input) always
returns a tuple whose MA order is below 10, in particular `calc_parameters`
always does. -/
theorem calc_parameters_q_guard (cp : List ℚ → ℕ) (p d q : ℕ)
    (sd : List ℚ) (h : 10 ≤ q) :
    qGuard cp p d q sd =
      qGuard cp (cp (diffOnce sd)) (d + 1) (q - 5) (diffOnce sd) ∧
    (qGuard cp p d q sd).2.2 < 10 ∧
    ∀ (stationary : List ℚ → Bool) (cq : List ℚ → ℕ) (s : List ℚ),
      (calc_parameters stationary cp cq s).2.2 < 10 := by
  refine ⟨?_, qGuard_q_lt cp q p d sd, ?_⟩
  · rw [qGuard, if_pos h]
  · intro stationary cq s
    unfold calc_parameters
    exact qGuard_q_lt cp _ _ _ _

/-- C9 witness: the guard theorem at the concrete state `q = 12`, exercising
one pass of the loop. -/
theorem calc_parameters_q_guard_witness :
    10 ≤ 12 ∧
    qGuard cpTwo 5 0 12 [] =
      qGuard cpTwo (cpTwo (diffOnce [])) (0 + 1) (12 - 5) (diffOnce []) ∧
    (qGuard cpTwo 5 0 12 []).2.2 < 10 ∧
    (calc_parameters statAll cpTwo cqTwelve [0, 1]).2.2 < 10 :=
  have h := calc_parameters_q_guard cpTwo 5 0 12 [] (by decide)
  ⟨by decide, h.1, h.2.1, h.2.2 statAll cqTwelve [0, 1]⟩

/-- C10 counterexample: `"Region"` is an existing dimension name and is
trivially a case variant of itself, yet the dimension setter rejects it —
upper-casing the argument before validating means a dimension whose stored
name is not fully upper-case is never accepted, contradicting the claim that
every case variant of an existing dimension name is accepted. -/
theorem dimension_setter_mixed_case_cex :
    caseVariant "Region" "Region" = true ∧
    "Region" ∈ (["Region"] : List String) ∧
    setDimension ["Region"] "Region" = Except.error "Dimension not found." :=
  ⟨by decide, by decide, rfl⟩

/-- C10 (amended): the dimension setter accepts exactly the strings whose
upper-casing is an existing dimension name or `"ALL"`, storing the
upper-cased value (so every case variant of a fully upper-case dimension
name is accepted, while a dimension name that is not fully upper-case is
never accepted) and raising otherwise; the measure setter compares its
argument verbatim against the registry keys, accepting exactly the exact
spellings, so the lowercase spelling of a valid measure raises. -/
theorem setters_validation_asymmetry (dimensions : List String) (s : String) :
    (setDimension dimensions s = Except.ok (pyUpper s) ↔
      (pyUpper s ∈ dimensions ∨ pyUpper s = "ALL")) ∧
    (¬ (pyUpper s ∈ dimensions ∨ pyUpper s = "ALL") →
      setDimension dimensions s = Except.error "Dimension not found.") ∧
    (setMeasure s = Except.ok s ↔ s ∈ STRUCTURE.map Prod.fst) ∧
    (s ∉ STRUCTURE.map Prod.fst →
      setMeasure s = Except.error "Measure not found.") ∧
    setMeasure "conversion_rate" = Except.error "Measure not found." := by
  refine ⟨?_, ?_, ?_, ?_, rfl⟩
  · unfold setDimension
    by_cases h : dimensions.contains (pyUpper s) || pyUpper s = "ALL"
    · rw [if_pos h]
      simp only [Bool.or_eq_true, List.contains, List.elem_iff, decide_eq_true_eq]
        at h
      simp [h]
    · rw [if_neg h]
      simp only [Bool.or_eq_true, List.contains, List.elem_iff, decide_eq_true_eq]
        at h
      simp [h]
  · intro h
    unfold setDimension
    rw [if_neg]
    simpa [List.contains, List.elem_iff] using h
  · unfold setMeasure
    by_cases h : s ∈ STRUCTURE.map Prod.fst
    · rw [if_pos (by simpa [List.contains, List.elem_iff] using h)]
      simp [h]
    · rw [if_neg (by simpa [List.contains, List.elem_iff] using h)]
      simp [h]
  · intro h
    unfold setMeasure
    rw [if_neg]
    simpa [List.contains, List.elem_iff] using h

/-- C10 witness: a lowercase spelling of an upper-case dimension name is
accepted and stored upper-cased; the lowercase spelling of a valid measure
raises. -/
theorem setters_validation_asymmetry_witness :
    setDimension ["STATE"] "state" = Except.ok "STATE" ∧
    setMeasure "conversion_rate" = Except.error "Measure not found." :=
  have h := setters_validation_asymmetry ["STATE"] "state"
  have e : pyUpper "state" = "STATE" := by decide
  have hok := h.1.mpr (by decide)
  ⟨by rw [e] at hok; exact hok, h.2.2.2.2⟩
